import Mathlib

/-!
Verification of the live camera streaming subsystem (src/optic_mcp/stream.py):
the FrameBuffer latest-frame slot, the StreamServer lifecycle, the
StreamManager registry (start_stream / stop_stream / list_streams / stop_all),
the MJPEG response framing of `_serve_mjpeg_stream`, and the dashboard's
POST dispatch.  Frame bytes are modelled as `List Nat`, Python ints as `Int`,
dicts keyed by camera index as insertion-ordered association lists, and the
camera environment (which camera indices can be opened) as a function
`Int → Bool` supplied to the operations that open cameras.
-/

/-- Per-camera HTTP stream server (class `StreamServer`, stream.py lines
78-165).  The first fields mirror `__init__` (lines 81-97): camera index,
bound port, `streaming` flag, the latest-frame slot `_frame` (the FrameBuffer),
and the two thread handles (`true` means the handle is set, `false` means
`None`).  `serveLoopRunning` and `isShutDown` mirror the standard library
`serve_forever`/`shutdown` handshake of `HTTPServer`: `serve_forever` runs
until `shutdown` is requested and sets an is-shut-down event when it exits;
`shutdown()` waits on that event.  `sockClosed` records whether
`server_close()` — the only call that closes the listening socket bound by
`__init__` — has run; this code never calls it. -/
structure StreamServer where
  camera_index : Int
  port : Int
  streaming : Bool
  frame : Option (List Nat)
  captureThread : Bool
  serverThread : Bool
  serveLoopRunning : Bool
  isShutDown : Bool
  sockClosed : Bool
  deriving DecidableEq

/-- Python `StreamServer.__init__` (lines 81-97): binds the listening socket
on the requested port and initialises all lifecycle fields, with no frame
yet produced and no threads started. -/
def StreamServer.init (camera_index port : Int) : StreamServer :=
  { camera_index := camera_index
    port := port
    streaming := false
    frame := none
    captureThread := false
    serverThread := false
    serveLoopRunning := false
    isShutDown := false
    sockClosed := false }

/-- Python `StreamServer.get_frame` (lines 99-102): return the latest frame
slot under the frame lock, without blocking (`None` when nothing was
produced yet). -/
def StreamServer.get_frame (s : StreamServer) : Option (List Nat) := s.frame

/-- The frame-slot update performed by `_capture_loop` (lines 124-126):
atomically replace the latest frame under the frame lock. -/
def StreamServer.write_frame (s : StreamServer) (b : List Nat) : StreamServer :=
  { s with frame := some b }

/-- Errors raised out of `StreamServer.start` / `StreamManager.start_stream`:
the RuntimeError "Port p is already in use by camera idx" (lines 210-212) and
the RuntimeError "Could not open camera at index i" (line 148). -/
inductive StartError where
  | PortInUse (owner : Int) (port : Int)
  | OpenFailed (camera_index : Int)
  deriving DecidableEq

/-- Python `StreamServer.start` (lines 133-152), under a camera environment
`env` telling which camera indices can be opened (cv2.VideoCapture.isOpened,
line 108).  Early return when already streaming; otherwise `streaming` is set,
the capture thread is spawned (its loop clears `streaming` when the camera
fails to open, lines 108-110), the 0.5 s grace wait elapses, and start either
raises `OpenFailed` (lines 147-148) or spawns the server thread running
`serve_forever` (lines 150-152). -/
def StreamServer.start (env : Int → Bool) (s : StreamServer) :
    Except StartError StreamServer :=
  if s.streaming then .ok s
  else if env s.camera_index then
    .ok { s with
            streaming := true
            captureThread := true
            serverThread := true
            serveLoopRunning := true }
  else .error (.OpenFailed s.camera_index)

/-- The server object left behind when `start` raised `OpenFailed` at line
148: `streaming` was set (line 138) and then cleared by the capture loop
(line 109), the capture thread handle was assigned (line 141) even though the
loop has exited, and the server thread was never started, so `serve_forever`
never ran. -/
def startFailedServer (camera_index port : Int) : StreamServer :=
  { StreamServer.init camera_index port with captureThread := true }

/-- Whether `StreamServer.stop` (lines 154-165) blocks forever: its
`self.shutdown()` call (line 157) waits on the is-shut-down event that only
`serve_forever` sets when it exits.  When the serve loop is not running and
has not already shut down, that event is never set and the wait never
returns (the standard library documents that calling `shutdown` while
`serve_forever` is not running in another thread deadlocks). -/
def StreamServer.stopBlocks (s : StreamServer) : Bool :=
  !s.serveLoopRunning && !s.isShutDown

/-- The state transformation `StreamServer.stop` (lines 154-165) performs when
it returns: clear `streaming` (line 156), shut the serve loop down (line 157),
join both threads with a 2 s timeout and drop the handles (lines 159-165).
No other field is touched: the frame slot keeps its last value and, because
`server_close()` is never called, `sockClosed` is unchanged, so the listening
socket bound in `__init__` stays open. -/
def StreamServer.stop (s : StreamServer) : StreamServer :=
  { s with
      streaming := false
      serveLoopRunning := false
      isShutDown := true
      captureThread := false
      serverThread := false }

/-- The StreamServer right after a successful `start` from a fresh
`__init__`: streaming with both threads running. -/
def runningServer (camera_index port : Int) : StreamServer :=
  { StreamServer.init camera_index port with
      streaming := true
      captureThread := true
      serverThread := true
      serveLoopRunning := true }

/-- The `StreamManager` registry (lines 168-184): the dict
`self._streams : camera index → StreamServer`, modelled as an
insertion-ordered association list (Python dict keys are unique and keep
insertion order). -/
structure StreamManager where
  streams : List (Int × StreamServer)
  deriving DecidableEq

/-- A freshly constructed manager (line 176): empty registry. -/
def emptyManager : StreamManager := ⟨[]⟩

/-- The first registered camera index owning `port`, in registry order
(the loop at lines 208-212). -/
def findPortOwner (l : List (Int × StreamServer)) (port : Int) : Option Int :=
  (l.find? (fun e => e.2.port == port)).map Prod.fst

/-- The dict returned by `start_stream` (lines 199-205 and 218-224). -/
structure StartResult where
  status : String
  camera_index : Int
  port : Int
  url : String
  stream_url : String
  deriving DecidableEq

/-- The f-string "http://localhost:{port}". -/
def urlOf (port : Int) : String := "http://localhost:" ++ toString port

/-- The f-string "http://localhost:{port}/stream". -/
def streamUrlOf (port : Int) : String := urlOf port ++ "/stream"

/-- Python `StreamManager.start_stream` (lines 186-224).  Returns the result
dict (or the raised error) together with the registry afterwards: an
already-registered index returns `already_running` with the existing port;
otherwise a port owned by another index raises `PortInUse`; otherwise a
fresh server is constructed and started, and only after `start` returns
without raising is the server registered (line 216). -/
def start_stream (env : Int → Bool) (st : StreamManager)
    (camera_index port : Int) : Except StartError StartResult × StreamManager :=
  match st.streams.lookup camera_index with
  | some existing =>
    (.ok { status := "already_running"
           camera_index := camera_index
           port := existing.port
           url := urlOf existing.port
           stream_url := streamUrlOf existing.port }, st)
  | none =>
    match findPortOwner st.streams port with
    | some idx => (.error (.PortInUse idx port), st)
    | none =>
      match StreamServer.start env (StreamServer.init camera_index port) with
      | .error e => (.error e, st)
      | .ok server =>
        (.ok { status := "started"
               camera_index := camera_index
               port := port
               url := urlOf port
               stream_url := streamUrlOf port },
         ⟨st.streams ++ [(camera_index, server)]⟩)

/-- The dict returned by `stop_stream` (lines 237-240 and 245-248). -/
structure StopResult where
  status : String
  camera_index : Int
  deriving DecidableEq

/-- Python `StreamManager.stop_stream` (lines 226-248): an unregistered index
returns `not_running` with the registry untouched; otherwise the entry is
popped from the registry and the popped server is stopped. -/
def stop_stream (st : StreamManager) (camera_index : Int) :
    StopResult × StreamManager :=
  match st.streams.lookup camera_index with
  | none => ({ status := "not_running", camera_index := camera_index }, st)
  | some server =>
    let _stopped := StreamServer.stop server
    ({ status := "stopped", camera_index := camera_index },
     ⟨st.streams.eraseP (fun e => e.1 == camera_index)⟩)

/-- One record of `list_streams` output (lines 259-267). -/
structure StreamInfo where
  camera_index : Int
  port : Int
  url : String
  stream_url : String
  streaming : Bool
  deriving DecidableEq

/-- Python `StreamManager.list_streams` (lines 250-268): a snapshot of the
registry, one info record per entry in registry order. -/
def list_streams (st : StreamManager) : List StreamInfo :=
  st.streams.map (fun e =>
    { camera_index := e.1
      port := e.2.port
      url := urlOf e.2.port
      stream_url := streamUrlOf e.2.port
      streaming := e.2.streaming })

/-- Python `StreamManager.stop_all` (lines 270-273): `stop_stream` over a
snapshot of the registry keys taken before the loop. -/
def stop_all (st : StreamManager) : StreamManager :=
  (st.streams.map Prod.fst).foldl (fun acc k => (stop_stream acc k).2) st

/-- ASCII bytes of a Lean string, for the byte strings `_serve_mjpeg_stream`
writes to the socket. -/
def asciiBytes (s : String) : List Nat := s.data.map Char.toNat

/-- One multipart part as written by `_serve_mjpeg_stream` (lines 67-70):
the boundary line, the part header bytes, the raw JPEG bytes, a trailing
CRLF. -/
def mjpegPart (frameData : List Nat) : List Nat :=
  asciiBytes "--frame\r\n" ++ asciiBytes "Content-Type: image/jpeg\r\n\r\n" ++
    frameData ++ asciiBytes "\r\n"

/-- Status code and headers sent by `_serve_mjpeg_stream` (lines 56-61), in
emission order. -/
def mjpegResponseHead : Nat × List (String × String) :=
  (200,
   [("Content-Type", "multipart/x-mixed-replace; boundary=frame"),
    ("Cache-Control", "no-cache, no-store, must-revalidate"),
    ("Pragma", "no-cache"),
    ("Expires", "0")])

/-- The body bytes produced by the serving loop of `_serve_mjpeg_stream`
(lines 63-72) over a trace of `get_frame` polls: one part per poll that found
a frame, nothing (only a 10 ms sleep) for a poll that found none. -/
def mjpegBody : List (Option (List Nat)) → List Nat
  | [] => []
  | some f :: rest => mjpegPart f ++ mjpegBody rest
  | none :: rest => mjpegBody rest

/-- The already-running check plus the port-conflict check of `start_stream`
(lines 197-212) in isolation, as the first atomic phase of a call. -/
def checkPhase (st : StreamManager) (camera_index port : Int) : Bool :=
  (st.streams.lookup camera_index).isNone &&
    (findPortOwner st.streams port).isNone

/-- The registration `self._streams[camera_index] = server` of `start_stream`
(line 216) in isolation, as the second atomic phase of a call.  Between the
two phases the code constructs and starts the server (lines 214-215,
including the 0.5 s grace sleep of `start`) while holding no lock:
`StreamManager._lock` is only ever acquired inside `__new__`
(lines 178-184), never in `start_stream` or `stop_stream`, so the steps of
concurrent calls can interleave here. -/
def registerPhase (st : StreamManager) (camera_index port : Int) :
    StreamManager :=
  ⟨st.streams ++ [(camera_index, runningServer camera_index port)]⟩

/-- The uncaught Python exception of the dashboard dispatch: the bare
`int()` at line 341 raises ValueError on a non-integer final segment. -/
inductive PyErr where
  | valueError
  deriving DecidableEq

/-- An HTTP response as assembled by the dashboard handlers: status code,
content type, body string. -/
structure HttpResponse where
  statusCode : Nat
  contentType : String
  body : String
  deriving DecidableEq

/-- Python `str.startswith` (used at line 340). -/
def pyStartswith (s pre : String) : Bool := pre.data.isPrefixOf s.data

/-- Python `path.split("/")[-1]` (line 341): the maximal slash-free suffix of
the path. -/
def lastSegment (l : List Char) : List Char :=
  (l.reverse.takeWhile (fun c => c ≠ '/')).reverse

/-- Digit run of CPython `int(str)` with optional single grouping underscores
between digits; `acc` is the value of the digits already consumed (entered
having just consumed a digit). -/
def pyDigitsAux : List Char → Nat → Option Nat
  | [], acc => some acc
  | '_' :: c :: rest, acc =>
    if c.isDigit then pyDigitsAux rest (acc * 10 + (c.toNat - 48)) else none
  | c :: rest, acc =>
    if c.isDigit then pyDigitsAux rest (acc * 10 + (c.toNat - 48)) else none

/-- CPython `int(str)` on the ASCII decimal forms that can occur in an HTTP
path: an optional sign, then one or more digits with optional single grouping
underscores between them; every other string raises ValueError, modelled as
`none`.  (Surrounding whitespace and non-ASCII digits, which CPython also
accepts, cannot occur in an HTTP request path and are left out.) -/
def pyInt : List Char → Option Int
  | '+' :: c :: rest =>
    if c.isDigit then (pyDigitsAux rest (c.toNat - 48)).map Int.ofNat else none
  | '-' :: c :: rest =>
    if c.isDigit then (pyDigitsAux rest (c.toNat - 48)).map (fun n => -(n : Int))
    else none
  | c :: rest =>
    if c.isDigit then (pyDigitsAux rest (c.toNat - 48)).map Int.ofNat else none
  | [] => none

/-- Python `json.dumps` of a `stop_stream` result dict (insertion order,
default separators): first the status, then the camera index. -/
def jsonStopResult (r : StopResult) : String :=
  "\x7b\"status\": \"" ++ r.status ++ "\", \"camera_index\": " ++
    toString r.camera_index ++ "\x7d"

/-- Python `DashboardHandler.do_POST` (lines 336-344) together with
`_stop_stream` (lines 346-354) and `_stop_all_streams` (lines 356-364):
exact match on "/api/stop-all", then matching "/api/stop/" by string prefix
and parsing the final path segment with the unguarded `int()` of line 341
(whose ValueError propagates), then a 404 via `send_error` (whose HTML error
body is not modelled).  Returns the response and the manager state after. -/
def do_POST (st : StreamManager) (path : String) :
    Except PyErr (HttpResponse × StreamManager) :=
  if path = "/api/stop-all" then
    .ok ({ statusCode := 200
           contentType := "application/json"
           body := "\x7b\"status\": \"stopped_all\"\x7d" }, stop_all st)
  else if pyStartswith path "/api/stop/" then
    match pyInt (lastSegment path.data) with
    | some n =>
      let r := stop_stream st n
      .ok ({ statusCode := 200
             contentType := "application/json"
             body := jsonStopResult r.1 }, r.2)
    | none => .error .valueError
  else
    .ok ({ statusCode := 404, contentType := "text/html", body := "" }, st)

/-! Helper lemmas about the registry association list.  These are shared
infrastructure, used by several of the theorems below. -/

/-- A key absent from every entry is not found by lookup. -/
theorem lookup_eq_none_of_forall_ne (i : Int) :
    ∀ l : List (Int × StreamServer), (∀ e ∈ l, e.1 ≠ i) →
      List.lookup i l = none := by
  intro l
  induction l with
  | nil => intro _; rfl
  | cons hd tl ih =>
    obtain ⟨k, v⟩ := hd
    intro h
    have hhd : k ≠ i := h (k, v) (List.mem_cons_self _ tl)
    have hbeq : (i == k) = false := beq_eq_false_iff_ne.mpr (fun h' => hhd h'.symm)
    show (match i == k with | true => some v | false => List.lookup i tl) = none
    rw [hbeq]
    exact ih (fun e he => h e (List.mem_cons_of_mem _ he))

/-- With pairwise-distinct keys (the Python dict invariant), every entry left
after erasing the entry keyed `i` has a key other than `i`. -/
theorem eraseP_key_ne (i : Int) :
    ∀ l : List (Int × StreamServer), (l.map Prod.fst).Nodup →
      ∀ e ∈ l.eraseP (fun e => e.1 == i), e.1 ≠ i := by
  intro l
  induction l with
  | nil => intro _ e he; simp [List.eraseP] at he
  | cons hd tl ih =>
    intro hnd e he
    rw [List.map_cons, List.nodup_cons] at hnd
    by_cases hk : hd.1 = i
    · rw [List.eraseP_cons, show (hd.1 == i) = true from beq_iff_eq.mpr hk] at he
      simp only [cond_true] at he
      intro hei
      exact hnd.1 (by rw [hk, ← hei]; exact List.mem_map_of_mem Prod.fst he)
    · rw [List.eraseP_cons, show (hd.1 == i) = false from beq_eq_false_iff_ne.mpr hk] at he
      simp only [cond_false, List.mem_cons] at he
      rcases he with he | he
      · exact he ▸ hk
      · exact ih hnd.2 e he

/-- Erasing by a key that heads the list drops exactly the head. -/
theorem eraseP_cons_self (k : Int) (v : StreamServer)
    (tl : List (Int × StreamServer)) :
    ((k, v) :: tl).eraseP (fun e => e.1 == k) = tl := by
  rw [List.eraseP_cons]
  simp

/-- stop_all empties any registry: the loop over the key snapshot pops one
entry per key, in registry order. -/
theorem stop_all_streams_nil (st : StreamManager) : (stop_all st).streams = [] := by
  obtain ⟨l⟩ := st
  show (List.foldl (fun acc k => (stop_stream acc k).2) ⟨l⟩ (l.map Prod.fst)).streams = []
  induction l with
  | nil => rfl
  | cons hd tl ih =>
    obtain ⟨k, v⟩ := hd
    rw [List.map_cons, List.foldl_cons]
    have hpop : (stop_stream ⟨(k, v) :: tl⟩ k).2 = ⟨tl⟩ := by
      show (stop_stream ⟨(k, v) :: tl⟩ k).2 = ⟨tl⟩
      have hl : List.lookup k ((k, v) :: tl) = some v := by
        simp [List.lookup]
      simp only [stop_stream, hl]
      rw [eraseP_cons_self]
    rw [hpop]
    exact ih

/-- C7: FrameBuffer round-trip — after write(B) with no interleaved write,
read returns exactly B; and a FrameBuffer into which no frame was ever
written reads None, absence rather than error, without blocking. -/
theorem framebuffer_roundtrip_and_empty_read :
    (∀ (s : StreamServer) (b : List Nat),
        StreamServer.get_frame (StreamServer.write_frame s b) = some b) ∧
    (∀ camera_index port : Int,
        StreamServer.get_frame (StreamServer.init camera_index port) = none) :=
  ⟨fun _ _ => rfl, fun _ _ => rfl⟩

/-- C9 amended: stop() changes only the lifecycle fields — streaming cleared,
serve loop shut down, thread handles dropped — while the frame slot, camera
index, port and socket state are unchanged; in particular the latest-frame
slot still holds the last captured frame rather than being cleared. -/
theorem stop_field_effects (s : StreamServer) :
    (StreamServer.stop s).frame = s.frame ∧
    (StreamServer.stop s).camera_index = s.camera_index ∧
    (StreamServer.stop s).port = s.port ∧
    (StreamServer.stop s).sockClosed = s.sockClosed ∧
    (StreamServer.stop s).streaming = false ∧
    (StreamServer.stop s).captureThread = false ∧
    (StreamServer.stop s).serverThread = false :=
  ⟨rfl, rfl, rfl, rfl, rfl, rfl, rfl⟩

/-- A server that captured the frame bytes [1, 2, 3] while streaming camera 0
on port 8080. -/
def demoFrameServer : StreamServer :=
  { runningServer 0 8080 with frame := some [1, 2, 3] }

/-- C9 fails as stated: stop() does not touch the frame slot, so after stop()
returns the latest-frame slot still holds the last captured frame [1, 2, 3]. -/
theorem stop_keeps_frame_counterexample :
    demoFrameServer.frame = some [1, 2, 3] ∧
    (StreamServer.stop demoFrameServer).frame = some [1, 2, 3] :=
  ⟨rfl, rfl⟩

/-- C6 fails: starting camera 0 in an environment where it cannot be opened
raises OpenFailed, and stop() on the server object that partial failure
leaves behind blocks forever — its shutdown() waits on the serve-forever
exit event, and serve_forever never ran. -/
theorem stop_after_failed_start_blocks :
    StreamServer.start (fun _ => false) (StreamServer.init 0 8080) =
      .error (.OpenFailed 0) ∧
    StreamServer.stopBlocks (startFailedServer 0 8080) = true :=
  ⟨rfl, rfl⟩

/-- C5 fails: with the registry check and the registration as separate
unlocked phases (nothing in start_stream holds StreamManager._lock), two
calls start_stream(1, 8080) and start_stream(2, 8080) on an empty registry
can both run their port-conflict check before either registers — both checks
pass — and after both register, two distinct camera indices own port 8080,
violating the one-port-per-registry invariant the serialization was meant to
protect. -/
theorem unserialized_check_insert_race :
    checkPhase emptyManager 1 8080 = true ∧
    checkPhase emptyManager 2 8080 = true ∧
    ((registerPhase (registerPhase emptyManager 1 8080) 2 8080).streams.filter
        (fun e => e.2.port == 8080)).map Prod.fst = [1, 2] := by
  refine ⟨rfl, rfl, ?_⟩
  decide

/-- C8: every GET /stream response carries status 200 with the multipart
content type and the three cache-disabling headers, and every emitted part is
exactly the boundary line "--frame\r\n", the header line
"Content-Type: image/jpeg\r\n", a blank line "\r\n", the raw JPEG bytes, and
a trailing "\r\n"; the body over any poll trace is the concatenation of such
parts, one per available frame. -/
theorem mjpeg_response_framing :
    mjpegResponseHead =
      (200,
       [("Content-Type", "multipart/x-mixed-replace; boundary=frame"),
        ("Cache-Control", "no-cache, no-store, must-revalidate"),
        ("Pragma", "no-cache"),
        ("Expires", "0")]) ∧
    (∀ frameData : List Nat,
        mjpegPart frameData =
          asciiBytes "--frame\r\n" ++ asciiBytes "Content-Type: image/jpeg\r\n" ++
            asciiBytes "\r\n" ++ frameData ++ asciiBytes "\r\n") ∧
    (∀ polls : List (Option (List Nat)),
        mjpegBody polls = List.flatten ((polls.filterMap id).map mjpegPart)) := by
  refine ⟨rfl, fun f => ?_, fun polls => ?_⟩
  · have h : asciiBytes "Content-Type: image/jpeg\r\n\r\n" =
        asciiBytes "Content-Type: image/jpeg\r\n" ++ asciiBytes "\r\n" := by
      decide
    simp [mjpegPart, h]
  · induction polls with
    | nil => rfl
    | cons hd tl ih => cases hd <;> simp [mjpegBody, ih]

/-- C1: whenever start_stream fails — raising PortInUse or OpenFailed — the
registry after the call is exactly the registry before it: no entry is
added, removed or modified (registration at line 216 only happens after
start returned without raising). -/
theorem start_stream_error_preserves_registry
    (env : Int → Bool) (st : StreamManager) (camera_index port : Int)
    (e : StartError)
    (h : (start_stream env st camera_index port).1 = .error e) :
    (start_stream env st camera_index port).2 = st := by
  unfold start_stream at h ⊢
  cases hl : st.streams.lookup camera_index with
  | some existing => simp [hl] at h
  | none =>
    simp only [hl] at h ⊢
    cases hp : findPortOwner st.streams port with
    | some idx => simp [hp]
    | none =>
      simp only [hp] at h ⊢
      cases hs : StreamServer.start env (StreamServer.init camera_index port) with
      | error e2 => simp [hs]
      | ok server => simp [hs] at h

/-- A registry in which camera 0 already streams on port 8080. -/
def portBusyState : StreamManager := ⟨[(0, runningServer 0 8080)]⟩

/-- Witness for C1: starting camera 1 on the busy port 8080 fails with
PortInUse and leaves the registry unchanged. -/
theorem start_stream_error_preserves_registry_witness :
    (start_stream (fun _ => true) portBusyState 1 8080).1 =
      .error (.PortInUse 0 8080) ∧
    (start_stream (fun _ => true) portBusyState 1 8080).2 = portBusyState :=
  ⟨by rfl, start_stream_error_preserves_registry (fun _ => true) portBusyState
      1 8080 (.PortInUse 0 8080) (by rfl)⟩

/-- C2: for i ≠ j, after start_stream(i, p) succeeds on a fresh manager,
start_stream(j, p) with the same port fails with PortInUse naming the owning
index i, and afterwards the registry still contains only i's stream — no
entry for j was added. -/
theorem port_conflict_second_start
    (env : Int → Bool) (i j p : Int) (hij : i ≠ j) (hi : env i = true) :
    (start_stream env emptyManager i p).1 =
      .ok { status := "started", camera_index := i, port := p,
            url := urlOf p, stream_url := streamUrlOf p } ∧
    (start_stream env emptyManager i p).2 = ⟨[(i, runningServer i p)]⟩ ∧
    (start_stream env ⟨[(i, runningServer i p)]⟩ j p).1 =
      .error (.PortInUse i p) ∧
    (start_stream env ⟨[(i, runningServer i p)]⟩ j p).2 =
      ⟨[(i, runningServer i p)]⟩ := by
  have hstart : StreamServer.start env (StreamServer.init i p) =
      .ok (runningServer i p) := by
    unfold StreamServer.start StreamServer.init runningServer
    simp [hi]
    exact ⟨rfl, rfl, rfl, rfl, rfl⟩
  have h1 : start_stream env emptyManager i p =
      (.ok { status := "started", camera_index := i, port := p,
             url := urlOf p, stream_url := streamUrlOf p },
       ⟨[(i, runningServer i p)]⟩) := by
    unfold start_stream
    rw [hstart]
    rfl
  have hbeqji : (j == i) = false := beq_eq_false_iff_ne.mpr (fun h' => hij h'.symm)
  have hlookup : List.lookup j [(i, runningServer i p)] = none := by
    show (match j == i with
          | true => some (runningServer i p)
          | false => List.lookup j ([] : List (Int × StreamServer))) = none
    rw [hbeqji]
    rfl
  have hfind : findPortOwner [(i, runningServer i p)] p = some i := by
    have hport : (runningServer i p).port = p := rfl
    simp [findPortOwner, List.find?, hport]
  have h2 : start_stream env ⟨[(i, runningServer i p)]⟩ j p =
      (.error (.PortInUse i p), ⟨[(i, runningServer i p)]⟩) := by
    unfold start_stream
    dsimp only
    rw [hlookup, hfind]
  exact ⟨by rw [h1], by rw [h1], by rw [h2], by rw [h2]⟩

/-- Witness for C2 at i = 1, j = 2, p = 8080 with every camera openable. -/
theorem port_conflict_second_start_witness :
    ((1 : Int) ≠ 2) ∧
    ((start_stream (fun _ => true) emptyManager 1 8080).1 =
      .ok { status := "started", camera_index := 1, port := 8080,
            url := urlOf 8080, stream_url := streamUrlOf 8080 } ∧
    (start_stream (fun _ => true) emptyManager 1 8080).2 =
      ⟨[(1, runningServer 1 8080)]⟩ ∧
    (start_stream (fun _ => true) ⟨[(1, runningServer 1 8080)]⟩ 2 8080).1 =
      .error (.PortInUse 1 8080) ∧
    (start_stream (fun _ => true) ⟨[(1, runningServer 1 8080)]⟩ 2 8080).2 =
      ⟨[(1, runningServer 1 8080)]⟩) :=
  ⟨by decide, port_conflict_second_start (fun _ => true) 1 2 8080 (by decide) rfl⟩

/-- C3: start_stream on an index that already has a registered stream with
port p returns already_running carrying the existing port p — the requested
port p2 is ignored, nothing is raised — and the whole registry (so also the
entry for i, whose port is still p) is unchanged. -/
theorem already_running_keeps_registry
    (env : Int → Bool) (st : StreamManager) (i p p2 : Int) (s : StreamServer)
    (hl : st.streams.lookup i = some s) (hp : s.port = p) :
    start_stream env st i p2 =
      (.ok { status := "already_running", camera_index := i, port := p,
             url := urlOf p, stream_url := streamUrlOf p }, st) := by
  subst hp
  unfold start_stream
  rw [hl]

/-- Witness for C3: camera 5 registered on port 7000, restarted requesting
port 9999. -/
theorem already_running_keeps_registry_witness :
    (List.lookup (5 : Int) [(5, runningServer 5 7000)] =
      some (runningServer 5 7000)) ∧
    start_stream (fun _ => true) ⟨[(5, runningServer 5 7000)]⟩ 5 9999 =
      (.ok { status := "already_running", camera_index := 5, port := 7000,
             url := urlOf 7000, stream_url := streamUrlOf 7000 },
       ⟨[(5, runningServer 5 7000)]⟩) :=
  ⟨by rfl, already_running_keeps_registry (fun _ => true)
      ⟨[(5, runningServer 5 7000)]⟩ 5 7000 9999 (runningServer 5 7000) rfl rfl⟩

/-- C4 fails as stated: stopping camera 0's stream removes it from the
registry, but the stopped server's listening socket is not closed —
stop() performs shutdown() and the joins only, never server_close() — so
the TCP port is not released by the call (its release is left to interpreter
garbage collection of the server object). -/
theorem stop_stream_port_not_released :
    (stop_stream ⟨[(0, runningServer 0 8080)]⟩ 0).1 =
      { status := "stopped", camera_index := 0 } ∧
    (stop_stream ⟨[(0, runningServer 0 8080)]⟩ 0).2.streams = [] ∧
    (StreamServer.stop (runningServer 0 8080)).sockClosed = false :=
  ⟨by rfl, by rfl, rfl⟩

/-- C4 amended: after stop_stream(i) on a registered i, list_streams no
longer contains i (for the dict-unique keys the registry maintains), the
call reports stopped, and stop_all empties the registry; but stop() leaves
every server's socket-closed state unchanged — the listening sockets stay
open, so the ports are not freed by the calls themselves. -/
theorem stop_stream_removes_entry_socket_unchanged
    (st : StreamManager) (i : Int) (s : StreamServer)
    (hnd : (st.streams.map Prod.fst).Nodup)
    (hl : st.streams.lookup i = some s) :
    (stop_stream st i).1 = { status := "stopped", camera_index := i } ∧
    List.lookup i (stop_stream st i).2.streams = none ∧
    (∀ info ∈ list_streams (stop_stream st i).2, info.camera_index ≠ i) ∧
    (StreamServer.stop s).sockClosed = s.sockClosed ∧
    (∀ e ∈ st.streams, (StreamServer.stop e.2).sockClosed = e.2.sockClosed) ∧
    (stop_all st).streams = [] := by
  have hred : stop_stream st i =
      ({ status := "stopped", camera_index := i },
       ⟨st.streams.eraseP (fun e => e.1 == i)⟩) := by
    unfold stop_stream
    rw [hl]
  have hkeys := eraseP_key_ne i st.streams hnd
  refine ⟨by rw [hred], ?_, ?_, rfl, fun e _ => rfl, stop_all_streams_nil st⟩
  · rw [hred]
    exact lookup_eq_none_of_forall_ne i _ hkeys
  · rw [hred]
    intro info hinfo
    unfold list_streams at hinfo
    simp only [List.mem_map] at hinfo
    obtain ⟨e, he, heq⟩ := hinfo
    subst heq
    exact hkeys e he

/-- Witness for C4's amended statement: camera 0 streaming alone on
port 8080, then stopped. -/
theorem stop_stream_removes_entry_socket_unchanged_witness :
    (([(0, runningServer 0 8080)].map Prod.fst).Nodup) ∧
    ((stop_stream ⟨[(0, runningServer 0 8080)]⟩ 0).1 =
      { status := "stopped", camera_index := 0 } ∧
    List.lookup 0 (stop_stream ⟨[(0, runningServer 0 8080)]⟩ 0).2.streams =
      none ∧
    (∀ info ∈ list_streams (stop_stream ⟨[(0, runningServer 0 8080)]⟩ 0).2,
        info.camera_index ≠ 0) ∧
    (StreamServer.stop (runningServer 0 8080)).sockClosed =
      (runningServer 0 8080).sockClosed ∧
    (∀ e ∈ [((0 : Int), runningServer 0 8080)],
        (StreamServer.stop e.2).sockClosed = e.2.sockClosed) ∧
    (stop_all ⟨[(0, runningServer 0 8080)]⟩).streams = []) :=
  ⟨by decide, stop_stream_removes_entry_socket_unchanged
      ⟨[(0, runningServer 0 8080)]⟩ 0 (runningServer 0 8080) (by decide) rfl⟩

/-- C10: the dashboard's POST dispatch matches /api/stop/ by string prefix
and parses the final path segment with the bare int() of line 341: when the
segment is a valid decimal integer literal it invokes stop_stream on that
index and answers its result as JSON with status 200; when it is not, the
handler raises ValueError instead of producing any response. -/
theorem do_POST_stop_dispatch
    (st : StreamManager) (path : String)
    (hpre : pyStartswith path "/api/stop/" = true) :
    (∀ n : Int, pyInt (lastSegment path.data) = some n →
        do_POST st path =
          .ok ({ statusCode := 200
                 contentType := "application/json"
                 body := jsonStopResult (stop_stream st n).1 },
               (stop_stream st n).2)) ∧
    (pyInt (lastSegment path.data) = none →
        do_POST st path = .error .valueError) := by
  have hne : ¬ (path = "/api/stop-all") := by
    intro he
    rw [he] at hpre
    exact absurd hpre (by decide)
  constructor
  · intro n hn
    unfold do_POST
    rw [if_neg hne, if_pos hpre, hn]
  · intro hn
    unfold do_POST
    rw [if_neg hne, if_pos hpre, hn]

/-- Witness for C10: POST /api/stop/3 on an empty registry answers the
not_running result for camera 3 as 200 JSON. -/
theorem do_POST_stop_dispatch_witness :
    pyStartswith "/api/stop/3" "/api/stop/" = true ∧
    do_POST ⟨[]⟩ "/api/stop/3" =
      .ok ({ statusCode := 200
             contentType := "application/json"
             body := jsonStopResult (stop_stream ⟨[]⟩ 3).1 },
           (stop_stream ⟨[]⟩ 3).2) :=
  ⟨by rfl, (do_POST_stop_dispatch ⟨[]⟩ "/api/stop/3" (by rfl)).1 3 (by rfl)⟩
